import Mathlib

/-!
Shallow embedding of the `flaskr` application skeleton
(`flaskr/__init__.py` and `flaskr/db.py`).

The embedding models:
* the Flask configuration object as a function from keys to optional
  string values, with `from_mapping` / `from_pyfile(..., silent=True)`
  as folds of single-key updates, in the order the source applies them;
* `create_app` as a function from an environment (instance path, outcome
  of `os.makedirs`, optional contents of the instance `config.py`) and an
  optional test configuration to either an application record or an
  uncaught Python exception;
* the per-request SQLite helper of `db.py` (`get_db`, `close_db`,
  `init_db`, `init_db_command`, `init_app`) as explicit state passing over
  a `DBState` recording the per-request context `g`, a fresh-id counter
  for connection objects, logs of opened and closed connections, the
  scripts executed against each database file, and CLI output.
-/

/-! ## Configuration objects (`app.config`) -/

/-- A Flask config: finite map from string keys to string values. -/
def Config : Type := String → Option String

/-- The empty configuration. -/
def emptyConfig : Config := fun _ => none

/-- `c[k] = v`: a single configuration assignment. -/
def configSet (c : Config) (k v : String) : Config :=
  fun k' => if k' = k then some v else c k'

/-- `app.config.from_mapping(m)`: apply the assignments of `m` in order
(a later assignment to the same key wins, as for a Python dict). -/
def from_mapping (c : Config) (m : List (String × String)) : Config :=
  m.foldl (fun acc kv => configSet acc kv.1 kv.2) c

/-- `app.config.from_pyfile('config.py', silent=True)`: when the instance
`config.py` is absent the call is a silent no-op, otherwise its settings
are applied on top of `c`. -/
def from_pyfile_silent (c : Config) (file : Option (List (String × String))) : Config :=
  match file with
  | none => c
  | some m => from_mapping c m

/-- The defaults installed by `create_app`:
`SECRET_KEY='dev'` and `DATABASE=os.path.join(app.instance_path, 'flaskr.sqlite')`. -/
def defaultConfig (instancePath : String) : Config :=
  from_mapping emptyConfig
    [("SECRET_KEY", "dev"), ("DATABASE", instancePath ++ "/flaskr.sqlite")]

/-! ## The application object -/

/-- The teardown hooks this code base can register
(`app.teardown_appcontext(close_db)` registers the only one). -/
inductive TeardownHook
  | closeDb
deriving DecidableEq

/-- The Flask application object, restricted to the state this code base
touches: the instance path, the config, the registered routes (every
handler here returns a fixed string), the teardown hooks and the CLI
commands. -/
structure App where
  instancePath : String
  config : Config
  routes : List (String × String)
  teardownHooks : List TeardownHook
  cliCommands : List String

/-- `db.init_app(app)`: registers `close_db` as a teardown hook and adds
the `init-db` CLI command. -/
def init_app (app : App) : App :=
  { app with
    teardownHooks := app.teardownHooks ++ [TeardownHook.closeDb]
    cliCommands := app.cliCommands ++ ["init-db"] }

/-! ## `create_app` -/

/-- The possible outcomes of `os.makedirs(app.instance_path)`:
success, an `OSError` because the directory already exists
(`FileExistsError`), an `OSError` of any other kind (e.g. permission
denied), or an exception that is not an `OSError`. -/
inductive MakedirsOutcome
  | ok
  | errFileExists
  | errOtherOS
  | errNonOS
deriving DecidableEq

/-- An uncaught Python exception escaping `create_app`. -/
inductive PyError
  | nonOSError
deriving DecidableEq

/-- The environment `create_app` runs in: the instance path of the app,
the outcome `os.makedirs(app.instance_path)` would have, and the contents
of the instance `config.py` (absent or a list of settings). -/
structure AppEnv where
  instancePath : String
  makedirs : MakedirsOutcome
  configPy : Option (List (String × String))

/-- `create_app(test_config=None)` from `flaskr/__init__.py`:
set the defaults; if `test_config` is `None` load `config.py` silently,
otherwise apply `test_config`; `try: os.makedirs(app.instance_path)
except OSError: pass`; register the `/hello` route returning
`'Hello, World'`; run `db.init_app(app)`; return the app. A non-`OSError`
raised by `makedirs` is not caught and propagates. -/
def create_app (env : AppEnv) (test_config : Option (List (String × String))) :
    Except PyError App :=
  let cfg0 := defaultConfig env.instancePath
  let cfg1 :=
    match test_config with
    | none => from_pyfile_silent cfg0 env.configPy
    | some m => from_mapping cfg0 m
  match env.makedirs with
  | MakedirsOutcome.errNonOS => Except.error PyError.nonOSError
  | _ =>
      Except.ok (init_app
        { instancePath := env.instancePath
          config := cfg1
          routes := [("/hello", "Hello, World")]
          teardownHooks := []
          cliCommands := [] })

/-- Route dispatch: the body returned for a GET of path `p`, if a route
matches. -/
def route_lookup : List (String × String) → String → Option String
  | [], _ => none
  | (r, body) :: t, p => if p = r then some body else route_lookup t p

/-- The application produced by a successful `create_app`, with an inert
fallback in the error case (used only to state closed witness theorems). -/
def appOf (env : AppEnv) (test_config : Option (List (String × String))) : App :=
  match create_app env test_config with
  | Except.ok a => a
  | Except.error _ =>
      { instancePath := ""
        config := emptyConfig
        routes := []
        teardownHooks := []
        cliCommands := [] }

/-! ## The per-request database helper (`flaskr/db.py`) -/

/-- The row factory of a connection: sqlite3's default, or `sqlite3.Row`. -/
inductive RowFactory
  | default
  | sqliteRow
deriving DecidableEq

/-- A `sqlite3.Connection` object: its identity, the database file it was
opened on, whether `detect_types=sqlite3.PARSE_DECLTYPES` was passed to
`sqlite3.connect`, and its current `row_factory`. -/
structure Conn where
  id : Nat
  database : String
  detect_types : Bool
  row_factory : RowFactory
deriving DecidableEq

/-- The state the database helper acts on: the `db` slot of the
per-request context object `g`, a fresh-id source for new connection
objects, the log of connections opened and of connection ids closed so
far, the scripts executed against each database file (pairs of file path
and script text), and the text printed by `click.echo`. -/
structure DBState where
  g : Option Conn
  nextConnId : Nat
  opened : List Conn
  closed : List Nat
  dbScripts : List (String × String)
  output : List String
deriving DecidableEq

/-- `sqlite3.connect(database, detect_types=...)`: a fresh connection
object with sqlite3's default row factory. -/
def sqlite3_connect (database : String) (detect : Bool) (cid : Nat) : Conn :=
  { id := cid, database := database, detect_types := detect,
    row_factory := RowFactory.default }

/-- `get_db()` from `db.py`: if `'db' not in g`, open a connection to
`current_app.config['DATABASE']` (the `dbPath` argument) with
`detect_types=sqlite3.PARSE_DECLTYPES` and set its `row_factory` to
`sqlite3.Row`, storing it in `g.db`; return `g.db`. -/
def get_db (dbPath : String) (s : DBState) : Conn × DBState :=
  match s.g with
  | some c => (c, s)
  | none =>
      let c0 := sqlite3_connect dbPath true s.nextConnId
      let c := { c0 with row_factory := RowFactory.sqliteRow }
      (c, { s with
              g := some c
              nextConnId := s.nextConnId + 1
              opened := s.opened ++ [c] })

/-- `close_db(e=None)` from `db.py`: `db = g.pop('db', None)`; if a
connection was stored, close it. The exception argument `e` is ignored. -/
def close_db (e : Option Unit) (s : DBState) : DBState :=
  match s.g with
  | none => s
  | some c => { s with g := none, closed := s.closed ++ [c.id] }

/-- `db.executescript(script)`: run the script against the database file
the connection is attached to. -/
def executescript (c : Conn) (script : String) (s : DBState) : DBState :=
  { s with dbScripts := s.dbScripts ++ [(c.database, script)] }

/-- `init_db()` from `db.py`: `db = get_db()`, then execute the contents
of the static `schema.sql` resource (the `schema` argument) on it. -/
def init_db (dbPath schema : String) (s : DBState) : DBState :=
  let p := get_db dbPath s
  executescript p.1 schema p.2

/-- The `init-db` CLI command: call `init_db()` then
`click.echo('Initialized the database.')`. -/
def init_db_command (dbPath schema : String) (s : DBState) : DBState :=
  let s1 := init_db dbPath schema s
  { s1 with output := s1.output ++ ["Initialized the database."] }

/-! ## Request lifecycle -/

/-- The database actions a request handler can perform through this
module. -/
inductive ReqAction
  | getDb
  | closeDbAct
deriving DecidableEq

/-- Run one handler action. -/
def runAction (dbPath : String) (s : DBState) (a : ReqAction) : DBState :=
  match a with
  | ReqAction.getDb => (get_db dbPath s).2
  | ReqAction.closeDbAct => close_db none s

/-- Run a handler's sequence of database actions. -/
def runActions (dbPath : String) (s : DBState) (acts : List ReqAction) : DBState :=
  acts.foldl (runAction dbPath) s

/-- Run one registered teardown hook (Flask passes the exception, if any,
as `close_db`'s argument; it is ignored). -/
def runHook (s : DBState) (h : TeardownHook) : DBState :=
  match h with
  | TeardownHook.closeDb => close_db none s

/-- Run all registered teardown hooks at the end of a request. -/
def runTeardown (s : DBState) (hs : List TeardownHook) : DBState :=
  hs.foldl runHook s

/-- Entering a new request context: a fresh `g` with no stored
connection. The process-level state (fresh ids, logs, files) persists. -/
def new_request_context (s : DBState) : DBState :=
  { s with g := none }

/-- A full request lifecycle against an application: enter a fresh
request context, run the handler's database actions, then run the
application's teardown hooks. -/
def handle_request (app : App) (dbPath : String) (acts : List ReqAction)
    (s : DBState) : DBState :=
  runTeardown (runActions dbPath (new_request_context s) acts) app.teardownHooks

/-- A connection `c` opened during a request (not present in the
pre-request log `s0.opened`) and still open in state `s`. -/
def openedInReq (s0 s : DBState) (c : Conn) : Prop :=
  c ∈ s.opened ∧ c ∉ s0.opened ∧ c.id ∉ s.closed

/-- The per-request invariant relating the pre-request state `s0` to the
current state `s`: ids are fresh beyond `nextConnId`, the only connection
opened in this request and not yet closed is the one stored in `g`, and
`g` only ever stores such a connection. -/
def reqInv (s0 s : DBState) : Prop :=
  (∀ c ∈ s0.opened, c.id < s0.nextConnId) ∧
  s0.nextConnId ≤ s.nextConnId ∧
  (∀ c ∈ s.opened, c.id < s.nextConnId) ∧
  (∀ i ∈ s.closed, i < s.nextConnId) ∧
  (∀ c, c ∈ s.opened → c ∉ s0.opened → c.id ∉ s.closed → s.g = some c) ∧
  (∀ c, s.g = some c → openedInReq s0 s c)

/-- The invariant that `g`, when occupied, holds a connection opened with
`detect_types=sqlite3.PARSE_DECLTYPES` and `row_factory = sqlite3.Row`. -/
def gInv (s : DBState) : Prop :=
  match s.g with
  | none => True
  | some c => c.detect_types = true ∧ c.row_factory = RowFactory.sqliteRow

/-- A sample connection object, used to state closed witness theorems. -/
def conn0 : Conn :=
  { id := 0, database := "db", detect_types := true,
    row_factory := RowFactory.sqliteRow }

/-- The pristine database-helper state: fresh request context, nothing
opened, closed, executed or printed. -/
def dbState0 : DBState :=
  { g := none, nextConnId := 0, opened := [], closed := [],
    dbScripts := [], output := [] }

/-- A state in which `conn0` is stored in the request context `g`. -/
def dbState1 : DBState :=
  { g := some conn0, nextConnId := 1, opened := [conn0], closed := [],
    dbScripts := [], output := [] }

/-! ## Theorems about `create_app` -/

/-- **C1.** For every application built by `create_app`, a GET of the
route `/hello` returns exactly the literal string `"Hello, World"`. -/
theorem hello_route_returns_hello_world (env : AppEnv)
    (tc : Option (List (String × String))) (app : App)
    (h : create_app env tc = Except.ok app) :
    route_lookup app.routes "/hello" = some "Hello, World" := by
  rcases env with ⟨ip, mk, cp⟩
  cases mk <;> cases tc <;> simp only [create_app, init_app] at h
  all_goals
    first
      | exact Except.noConfusion h
      | (injection h with h; subst h; rfl)

/-- Witness for C1 at a concrete environment. -/
theorem hello_route_returns_hello_world_witness :
    create_app ⟨"inst", MakedirsOutcome.ok, none⟩ none =
      Except.ok (appOf ⟨"inst", MakedirsOutcome.ok, none⟩ none) ∧
    route_lookup (appOf ⟨"inst", MakedirsOutcome.ok, none⟩ none).routes "/hello" =
      some "Hello, World" :=
  ⟨rfl, hello_route_returns_hello_world ⟨"inst", MakedirsOutcome.ok, none⟩ none _ rfl⟩

/-! ## Lemmas about `from_mapping` -/

theorem from_mapping_cons (c : Config) (a : String × String)
    (t : List (String × String)) :
    from_mapping c (a :: t) = from_mapping (configSet c a.1 a.2) t := rfl

theorem from_mapping_not_mem (m : List (String × String)) (c : Config)
    (k : String) (h : k ∉ m.map Prod.fst) : from_mapping c m k = c k := by
  induction m generalizing c with
  | nil => rfl
  | cons a t ih =>
      simp only [List.map_cons, List.mem_cons] at h
      push_neg at h
      rw [from_mapping_cons, ih _ h.2]
      simp [configSet, h.1]

theorem from_mapping_mem (m : List (String × String)) (c : Config)
    (k v : String) (hnd : (m.map Prod.fst).Nodup) (hmem : (k, v) ∈ m) :
    from_mapping c m k = some v := by
  induction m generalizing c with
  | nil => cases hmem
  | cons a t ih =>
      simp only [List.map_cons, List.nodup_cons] at hnd
      rcases List.mem_cons.mp hmem with h | h
      · rw [from_mapping_cons,
          from_mapping_not_mem t _ k (by rw [congrArg Prod.fst h.symm] at hnd; exact hnd.1)]
        simp [configSet, congrArg Prod.fst h.symm, congrArg Prod.snd h.symm]
      · rw [from_mapping_cons]
        exact ih _ hnd.2 h

/-- **C6.** For every supplied configuration mapping, `create_app` yields
an application whose configuration is the defaults overridden wholesale
by the mapping: every key of the mapping holds the mapping's value, and
every other key keeps its default. -/
theorem test_config_overrides_defaults (env : AppEnv)
    (m : List (String × String)) (app : App)
    (h : create_app env (some m) = Except.ok app)
    (hnd : (m.map Prod.fst).Nodup) :
    (∀ k v, (k, v) ∈ m → app.config k = some v) ∧
    (∀ k, k ∉ m.map Prod.fst → app.config k = defaultConfig env.instancePath k) := by
  rcases env with ⟨ip, mk, cp⟩
  cases mk <;> simp only [create_app, init_app] at h
  all_goals
    first
      | exact Except.noConfusion h
      | (injection h with h; subst h;
         exact ⟨fun k v hm => from_mapping_mem m (defaultConfig ip) k v hnd hm,
                fun k hk => from_mapping_not_mem m (defaultConfig ip) k hk⟩)

/-- Witness for C6 at a concrete environment and mapping. -/
theorem test_config_overrides_defaults_witness :
    create_app ⟨"inst", MakedirsOutcome.ok, none⟩ (some [("SECRET_KEY", "test")]) =
      Except.ok (appOf ⟨"inst", MakedirsOutcome.ok, none⟩ (some [("SECRET_KEY", "test")])) ∧
    (([("SECRET_KEY", "test")].map Prod.fst).Nodup) ∧
    ((∀ k v, (k, v) ∈ [("SECRET_KEY", "test")] →
        (appOf ⟨"inst", MakedirsOutcome.ok, none⟩ (some [("SECRET_KEY", "test")])).config k
          = some v) ∧
     (∀ k, k ∉ [("SECRET_KEY", "test")].map Prod.fst →
        (appOf ⟨"inst", MakedirsOutcome.ok, none⟩ (some [("SECRET_KEY", "test")])).config k
          = defaultConfig "inst" k)) :=
  ⟨rfl, by decide,
   test_config_overrides_defaults ⟨"inst", MakedirsOutcome.ok, none⟩
     [("SECRET_KEY", "test")] _ rfl (by decide)⟩

/-- **C7, counterexample.** With `test_config=None` and an instance
`config.py` present that sets `SECRET_KEY` to `"prod"`, `create_app`
returns an application whose secret key is not the default `"dev"`: the
claim that the configuration holds the defaults fails. -/
theorem create_app_none_defaults_cex :
    create_app ⟨"inst", MakedirsOutcome.ok, some [("SECRET_KEY", "prod")]⟩ none =
      Except.ok (appOf ⟨"inst", MakedirsOutcome.ok, some [("SECRET_KEY", "prod")]⟩ none) ∧
    (appOf ⟨"inst", MakedirsOutcome.ok, some [("SECRET_KEY", "prod")]⟩ none).config
      "SECRET_KEY" = some "prod" ∧
    (appOf ⟨"inst", MakedirsOutcome.ok, some [("SECRET_KEY", "prod")]⟩ none).config
      "SECRET_KEY" ≠ some "dev" := by
  refine ⟨rfl, ?_, ?_⟩ <;> decide

/-- **C7, amended.** `create_app` with `test_config=None` does not raise
even if the instance directory already exists (any `OSError` from
`makedirs` is swallowed), and — provided the instance `config.py` is
absent — returns an application configured with the defaults:
`SECRET_KEY='dev'` and `DATABASE` the file `flaskr.sqlite` inside the
instance directory. -/
theorem create_app_none_loads_defaults (ip : String) (mk : MakedirsOutcome)
    (hmk : mk ≠ MakedirsOutcome.errNonOS) :
    create_app ⟨ip, mk, none⟩ none = Except.ok (appOf ⟨ip, mk, none⟩ none) ∧
    (appOf ⟨ip, mk, none⟩ none).config "SECRET_KEY" = some "dev" ∧
    (appOf ⟨ip, mk, none⟩ none).config "DATABASE" = some (ip ++ "/flaskr.sqlite") := by
  cases mk
  case errNonOS => exact absurd rfl hmk
  all_goals
    exact ⟨rfl, by
      simp [appOf, create_app, init_app, from_pyfile_silent, defaultConfig,
        from_mapping, configSet, emptyConfig], by
      simp [appOf, create_app, init_app, from_pyfile_silent, defaultConfig,
        from_mapping, configSet, emptyConfig]⟩

/-- Witness for the amended C7: the instance directory already exists. -/
theorem create_app_none_loads_defaults_witness :
    (MakedirsOutcome.errFileExists ≠ MakedirsOutcome.errNonOS) ∧
    (create_app ⟨"inst", MakedirsOutcome.errFileExists, none⟩ none =
       Except.ok (appOf ⟨"inst", MakedirsOutcome.errFileExists, none⟩ none) ∧
     (appOf ⟨"inst", MakedirsOutcome.errFileExists, none⟩ none).config "SECRET_KEY" =
       some "dev" ∧
     (appOf ⟨"inst", MakedirsOutcome.errFileExists, none⟩ none).config "DATABASE" =
       some ("inst" ++ "/flaskr.sqlite")) :=
  ⟨by decide, create_app_none_loads_defaults "inst" MakedirsOutcome.errFileExists
    (by decide)⟩

/-- **C8, counterexample.** An `OSError` from `makedirs` that is *not*
directory-already-exists (e.g. permission denied) is also caught and
silently ignored: `create_app` completes exactly as if `makedirs` had
succeeded, refuting "no other failure kind is caught". -/
theorem other_oserror_is_caught_cex :
    create_app ⟨"inst", MakedirsOutcome.errOtherOS, none⟩ none =
      create_app ⟨"inst", MakedirsOutcome.ok, none⟩ none := rfl

/-- **C8, amended.** The only failures handled during `create_app` are
`OSError`s raised while creating the instance folder — of *any* kind,
directory-already-exists included — and they are silently ignored
(`create_app` completes exactly as on success); an exception that is not
an `OSError` is not caught and propagates. -/
theorem makedirs_error_handling (ip : String)
    (cp : Option (List (String × String))) (tc : Option (List (String × String))) :
    create_app ⟨ip, MakedirsOutcome.errFileExists, cp⟩ tc =
      create_app ⟨ip, MakedirsOutcome.ok, cp⟩ tc ∧
    create_app ⟨ip, MakedirsOutcome.errOtherOS, cp⟩ tc =
      create_app ⟨ip, MakedirsOutcome.ok, cp⟩ tc ∧
    create_app ⟨ip, MakedirsOutcome.errNonOS, cp⟩ tc =
      Except.error PyError.nonOSError :=
  ⟨rfl, rfl, rfl⟩

/-- **C9.** With a non-`None` test configuration, `create_app` never
reads the instance `config.py`: its result is literally independent of
that file's presence or contents. -/
theorem config_py_not_read_with_test_config (ip : String) (mk : MakedirsOutcome)
    (cp cp' : Option (List (String × String))) (m : List (String × String)) :
    create_app ⟨ip, mk, cp⟩ (some m) = create_app ⟨ip, mk, cp'⟩ (some m) := rfl

/-! ## Theorems about the database helper -/

/-- **C3.** Within a single request context (which starts with no stored
connection), every `get_db` call after the first returns exactly the
first call's connection object and state — a connection is opened only
when none is stored in `g` — while a new request context obtains a new
connection object. -/
theorem get_db_reuses_connection (p p' : String) (s : DBState)
    (h : s.g = none) :
    get_db p' (get_db p s).2 = get_db p s ∧
    (get_db p' (new_request_context (get_db p s).2)).1 ≠ (get_db p s).1 := by
  constructor
  · simp [get_db, h]
  · intro heq
    have hid := congrArg Conn.id heq
    simp [get_db, h, new_request_context, sqlite3_connect] at hid

/-- Witness for C3 at the pristine state. -/
theorem get_db_reuses_connection_witness :
    dbState0.g = none ∧
    (get_db "db" (get_db "db" dbState0).2 = get_db "db" dbState0 ∧
     (get_db "db" (new_request_context (get_db "db" dbState0).2)).1 ≠
       (get_db "db" dbState0).1) :=
  ⟨rfl, get_db_reuses_connection "db" "db" dbState0 rfl⟩

/-- **C4.** `close_db` is idempotent: calling it twice equals calling it
once; when no connection is stored it is a no-op (and, being total,
raises nothing); when a connection is stored it removes it from `g` and
closes it. -/
theorem close_db_idempotent (e e' : Option Unit) (s : DBState) :
    close_db e' (close_db e s) = close_db e s ∧
    (s.g = none → close_db e s = s) ∧
    (∀ c, s.g = some c →
      (close_db e s).g = none ∧ c.id ∈ (close_db e s).closed) := by
  refine ⟨?_, ?_, ?_⟩
  · rcases hg : s.g with _ | c <;> simp [close_db, hg]
  · intro h
    simp [close_db, h]
  · intro c h
    simp [close_db, h]

/-- Witness for C4, discharging the no-connection hypothesis at the
pristine state and the stored-connection hypothesis at `dbState1`. -/
theorem close_db_idempotent_witness :
    (close_db none (close_db none dbState1) = close_db none dbState1) ∧
    (dbState0.g = none ∧ close_db none dbState0 = dbState0) ∧
    (dbState1.g = some conn0 ∧
      (close_db none dbState1).g = none ∧
      conn0.id ∈ (close_db none dbState1).closed) :=
  ⟨(close_db_idempotent none none dbState1).1,
   ⟨rfl, (close_db_idempotent none none dbState0).2.1 rfl⟩,
   ⟨rfl, (close_db_idempotent none none dbState1).2.2 conn0 rfl⟩⟩

/-- **C10.** Assuming the request-context invariant (which holds at every
reachable state and is preserved by `get_db` and `close_db`), every
connection object `get_db` returns was opened with
`detect_types=sqlite3.PARSE_DECLTYPES` and has `row_factory` set to
`sqlite3.Row` — both on first open and on repeated access. -/
theorem get_db_connection_settings (p : String) (s : DBState) (h : gInv s) :
    ((get_db p s).1.detect_types = true ∧
     (get_db p s).1.row_factory = RowFactory.sqliteRow) ∧
    gInv (get_db p s).2 ∧ ∀ e, gInv (close_db e s) := by
  rcases hg : s.g with _ | c
  · refine ⟨by simp [get_db, hg, sqlite3_connect], ?_, ?_⟩
    · simp [gInv, get_db, hg, sqlite3_connect]
    · intro e
      simpa [close_db, hg] using h
  · have hc : c.detect_types = true ∧ c.row_factory = RowFactory.sqliteRow := by
      simpa [gInv, hg] using h
    refine ⟨by simp [get_db, hg, hc.1, hc.2], ?_, ?_⟩
    · simp [gInv, get_db, hg, hc.1, hc.2]
    · intro e
      simp [gInv, close_db, hg]

/-- Witness for C10 at the pristine state. -/
theorem get_db_connection_settings_witness :
    gInv dbState0 ∧
    (((get_db "db" dbState0).1.detect_types = true ∧
      (get_db "db" dbState0).1.row_factory = RowFactory.sqliteRow) ∧
     gInv (get_db "db" dbState0).2 ∧ ∀ e, gInv (close_db e dbState0)) :=
  ⟨trivial, get_db_connection_settings "db" dbState0 trivial⟩

/-- **C2.** Run in a fresh application context against a fresh database
file, the `init-db` command executes the `schema.sql` script (and nothing
else) against the configured database file and prints exactly
`"Initialized the database."`. -/
theorem init_db_command_applies_schema (p schema : String) (s : DBState)
    (hg : s.g = none) (hout : s.output = [])
    (hfresh : s.dbScripts.filter (fun en => en.1 == p) = []) :
    (init_db_command p schema s).output = ["Initialized the database."] ∧
    (init_db_command p schema s).dbScripts.filter (fun en => en.1 == p) =
      [(p, schema)] := by
  constructor
  · simp [init_db_command, init_db, executescript, get_db, hg, hout]
  · simp [init_db_command, init_db, executescript, get_db, hg, sqlite3_connect,
      List.filter_append, hfresh]

/-- Witness for C2 at the pristine state. -/
theorem init_db_command_applies_schema_witness :
    dbState0.g = none ∧ dbState0.output = [] ∧
    dbState0.dbScripts.filter (fun en => en.1 == "db") = [] ∧
    ((init_db_command "db" "CREATE TABLE user;" dbState0).output =
       ["Initialized the database."] ∧
     (init_db_command "db" "CREATE TABLE user;" dbState0).dbScripts.filter
       (fun en => en.1 == "db") = [("db", "CREATE TABLE user;")]) :=
  ⟨rfl, rfl, rfl,
   init_db_command_applies_schema "db" "CREATE TABLE user;" dbState0 rfl rfl rfl⟩

/-! ## The request-lifecycle invariant and teardown (C5) -/

theorem close_db_g_none (e : Option Unit) (s : DBState) :
    (close_db e s).g = none := by
  rcases hg : s.g with _ | c <;> simp [close_db, hg]

theorem reqInv_new_request (s0 : DBState)
    (h1 : ∀ c ∈ s0.opened, c.id < s0.nextConnId)
    (h2 : ∀ i ∈ s0.closed, i < s0.nextConnId) :
    reqInv s0 (new_request_context s0) := by
  refine ⟨h1, le_refl _, h1, h2, ?_, ?_⟩
  · intro c hc hnc _
    exact absurd hc hnc
  · intro c hc
    exact Option.noConfusion hc

theorem reqInv_get_db (s0 s : DBState) (p : String) (h : reqInv s0 s) :
    reqInv s0 (get_db p s).2 := by
  obtain ⟨h1, h2, h3, h4, h5, h6⟩ := h
  rcases hg : s.g with _ | c
  · simp only [get_db, hg]
    refine ⟨h1, ?_, ?_, ?_, ?_, ?_⟩
    · exact le_trans h2 (Nat.le_succ _)
    · intro c hc
      rcases List.mem_append.mp hc with hc | hc
      · exact lt_trans (h3 c hc) (Nat.lt_succ_self _)
      · rcases List.mem_singleton.mp hc with rfl
        exact Nat.lt_succ_self _
    · intro i hi
      exact lt_trans (h4 i hi) (Nat.lt_succ_self _)
    · intro c' hc' hns hncl
      rcases List.mem_append.mp hc' with hmem | hmem
      · have hgc := h5 c' hmem hns hncl
        rw [hg] at hgc
        exact Option.noConfusion hgc
      · rcases List.mem_singleton.mp hmem with rfl
        rfl
    · intro c' hc'
      injection hc' with hc'
      subst hc'
      refine ⟨List.mem_append_right _ (List.mem_singleton_self _), ?_, ?_⟩
      · intro hmem
        have hlt : s.nextConnId < s0.nextConnId := by
          simpa [sqlite3_connect] using h1 _ hmem
        exact absurd hlt (Nat.not_lt.mpr h2)
      · intro hmem
        have hlt := h4 _ hmem
        simp [sqlite3_connect] at hlt
  · have hs : (get_db p s).2 = s := by simp [get_db, hg]
    rw [hs]
    exact ⟨h1, h2, h3, h4, h5, h6⟩

theorem reqInv_close_db (s0 s : DBState) (e : Option Unit) (h : reqInv s0 s) :
    reqInv s0 (close_db e s) := by
  obtain ⟨h1, h2, h3, h4, h5, h6⟩ := h
  rcases hg : s.g with _ | c
  · have hs : close_db e s = s := by simp [close_db, hg]
    rw [hs]
    exact ⟨h1, h2, h3, h4, h5, h6⟩
  · obtain ⟨hco, hcns, hccl⟩ := h6 c hg
    simp only [close_db, hg]
    refine ⟨h1, h2, h3, ?_, ?_, ?_⟩
    · intro i hi
      rcases List.mem_append.mp hi with hi | hi
      · exact h4 i hi
      · rcases List.mem_singleton.mp hi with rfl
        exact h3 c hco
    · intro c' hc' hns hncl
      rw [List.mem_append] at hncl
      push_neg at hncl
      have hgc := h5 c' hc' hns hncl.1
      rw [hg] at hgc
      injection hgc with hgc
      subst hgc
      exact absurd (List.mem_singleton_self _) hncl.2
    · intro c' hc'
      exact Option.noConfusion hc'

theorem reqInv_runAction (s0 s : DBState) (p : String) (a : ReqAction)
    (h : reqInv s0 s) : reqInv s0 (runAction p s a) := by
  cases a with
  | getDb => exact reqInv_get_db s0 s p h
  | closeDbAct => exact reqInv_close_db s0 s none h

theorem reqInv_runActions (s0 : DBState) (p : String) (acts : List ReqAction)
    (s : DBState) (h : reqInv s0 s) : reqInv s0 (runActions p s acts) := by
  induction acts generalizing s with
  | nil => exact h
  | cons a t ih => exact ih _ (reqInv_runAction s0 s p a h)

theorem reqInv_runTeardown (s0 : DBState) (hs : List TeardownHook)
    (s : DBState) (h : reqInv s0 s) : reqInv s0 (runTeardown s hs) := by
  induction hs generalizing s with
  | nil => exact h
  | cons hk t ih =>
      cases hk
      exact ih _ (reqInv_close_db s0 s none h)

theorem runTeardown_last_close (s : DBState) (hs : List TeardownHook) :
    (runTeardown s (hs ++ [TeardownHook.closeDb])).g = none := by
  rw [runTeardown, List.foldl_append]
  exact close_db_g_none none _

/-- **C5.** After `init_app`, `close_db` is registered as a teardown
hook; in any request lifecycle against such an application, at most one
request-opened connection is open at any point of the handler's run, and
at teardown every connection opened via `get_db` during the request has
been closed — none remains open past teardown, and `g` is empty. -/
theorem teardown_closes_connections (app : App) (p : String)
    (l1 l2 : List ReqAction) (s : DBState)
    (h1 : ∀ c ∈ s.opened, c.id < s.nextConnId)
    (h2 : ∀ i ∈ s.closed, i < s.nextConnId) :
    TeardownHook.closeDb ∈ (init_app app).teardownHooks ∧
    (handle_request (init_app app) p (l1 ++ l2) s).g = none ∧
    (∀ c, c ∈ (handle_request (init_app app) p (l1 ++ l2) s).opened →
       c ∉ s.opened →
       c.id ∈ (handle_request (init_app app) p (l1 ++ l2) s).closed) ∧
    (∀ c c', openedInReq s (runActions p (new_request_context s) l1) c →
       openedInReq s (runActions p (new_request_context s) l1) c' → c = c') := by
  have hstart : reqInv s (new_request_context s) := reqInv_new_request s h1 h2
  have hmid : reqInv s (runActions p (new_request_context s) (l1 ++ l2)) :=
    reqInv_runActions s p (l1 ++ l2) _ hstart
  have hend : reqInv s (handle_request (init_app app) p (l1 ++ l2) s) :=
    reqInv_runTeardown s (init_app app).teardownHooks _ hmid
  have hgend : (handle_request (init_app app) p (l1 ++ l2) s).g = none :=
    runTeardown_last_close (runActions p (new_request_context s) (l1 ++ l2))
      app.teardownHooks
  refine ⟨?_, hgend, ?_, ?_⟩
  · simp [init_app]
  · intro c hc hns
    by_contra hncl
    have hgc := hend.2.2.2.2.1 c hc hns hncl
    rw [hgend] at hgc
    exact Option.noConfusion hgc
  · intro c c' hc hc'
    have hmid1 : reqInv s (runActions p (new_request_context s) l1) :=
      reqInv_runActions s p l1 _ hstart
    have e1 := hmid1.2.2.2.2.1 c hc.1 hc.2.1 hc.2.2
    have e2 := hmid1.2.2.2.2.1 c' hc'.1 hc'.2.1 hc'.2.2
    rw [e1] at e2
    exact Option.some.inj e2

/-- Witness for C5: one `get_db` in the handler, pristine initial state. -/
theorem teardown_closes_connections_witness :
    (∀ c ∈ dbState0.opened, c.id < dbState0.nextConnId) ∧
    (∀ i ∈ dbState0.closed, i < dbState0.nextConnId) ∧
    (TeardownHook.closeDb ∈
       (init_app ⟨"inst", emptyConfig, [], [], []⟩).teardownHooks ∧
     (handle_request (init_app ⟨"inst", emptyConfig, [], [], []⟩) "db"
        ([ReqAction.getDb] ++ []) dbState0).g = none ∧
     (∀ c, c ∈ (handle_request (init_app ⟨"inst", emptyConfig, [], [], []⟩) "db"
          ([ReqAction.getDb] ++ []) dbState0).opened →
        c ∉ dbState0.opened →
        c.id ∈ (handle_request (init_app ⟨"inst", emptyConfig, [], [], []⟩) "db"
          ([ReqAction.getDb] ++ []) dbState0).closed) ∧
     (∀ c c',
        openedInReq dbState0
          (runActions "db" (new_request_context dbState0) [ReqAction.getDb]) c →
        openedInReq dbState0
          (runActions "db" (new_request_context dbState0) [ReqAction.getDb]) c' →
        c = c')) :=
  ⟨by simp [dbState0], by simp [dbState0],
   teardown_closes_connections ⟨"inst", emptyConfig, [], [], []⟩ "db"
     [ReqAction.getDb] [] dbState0 (by simp [dbState0]) (by simp [dbState0])⟩
